import Mathlib

/-!
Shallow embedding of the Campus-Laundry-Management web application
(source: src/app.py, a Flask + SQLite program) and proofs about it.

Modelling conventions:
- The SQLite store is a record of four tables (lists of rows), mirroring the
  schema created by init_db.  Row ids are assigned the SQLite way for
  INTEGER PRIMARY KEY columns: largest existing id + 1 (rows are never
  deleted in this program).
- Timestamps (datetime.now()) are modelled as a Nat parameter "now" passed
  to each handler.
- The Flask session dict is a record: user_id models presence of the
  "user_id" key, is_admin models presence of the "is_admin" key (the code
  only ever stores True under that key, so presence is a Bool).
- Each request handler becomes a function from the store (plus its inputs)
  to an Outcome: a redirect with flashed messages, a rendered page with its
  view model, or an unhandled Python exception escaping the handler (fault).
  Flash messages are an inductive type, one constructor per flash(...) call
  in the source; the literal texts are quoted in the doc comments.
- get_db_cursor commits the shared per-request connection on success and
  rolls it back on any exception.  create_notification opens a nested
  get_db_cursor on the same connection, so its commit/rollback also
  commits/rolls back any statement the caller executed earlier: a handler
  either persists all its statements or none.  In the embedding this shows
  up as: the success path applies all updates, every failure path returns
  the original store.  The one injected fault is the notifications INSERT
  inside create_notification (parameter insert_ok on the two handlers that
  call it); the embedded pure store cannot itself raise, so other
  "except sqlite3.Error" branches are dead in the model.
-/

namespace Laundry

/-- Row of the students table: id INTEGER PRIMARY KEY, full_name TEXT UNIQUE,
password TEXT, room_number TEXT, gender TEXT. -/
structure Student where
  id : Nat
  full_name : String
  password : String
  room_number : String
  gender : String
deriving DecidableEq, Repr

/-- Row of the laundry table: id, student_id, status TEXT,
date_submitted TIMESTAMP, notification_sent BOOLEAN DEFAULT 0. -/
structure LaundryBag where
  id : Nat
  student_id : Nat
  status : String
  date_submitted : Nat
  notification_sent : Bool
deriving DecidableEq, Repr

/-- Row of the complaints table: id, student_id, laundry_id, description,
status TEXT DEFAULT "pending", date_submitted, admin_response (nullable),
date_resolved (nullable). -/
structure Complaint where
  id : Nat
  student_id : Nat
  laundry_id : Nat
  description : String
  status : String
  date_submitted : Nat
  admin_response : Option String
  date_resolved : Option Nat
deriving DecidableEq, Repr

/-- Row of the notifications table: id, student_id, message,
date_created TIMESTAMP, is_read BOOLEAN DEFAULT 0. -/
structure Notification where
  id : Nat
  student_id : Nat
  message : String
  date_created : Nat
  is_read : Bool
deriving DecidableEq, Repr

/-- The SQLite database: the four tables created by init_db. -/
structure Store where
  students : List Student
  laundry : List LaundryBag
  complaints : List Complaint
  notifications : List Notification
deriving DecidableEq, Repr

/-- The Flask session for one browser.  user_id = some sid models
session["user_id"] = sid; is_admin = true models session["is_admin"] = True
(the only value the code ever stores under that key). -/
structure Session where
  user_id : Option Nat
  is_admin : Bool
deriving DecidableEq, Repr

/-- One constructor per flash(...) call in src/app.py; literal texts:
limitExceeded = "You have reached the maximum limit of active laundry bags!",
laundrySubmitted = "Laundry submitted successfully!",
complaintSubmitted = "Complaint submitted successfully!",
registrationSuccessful = "Registration successful! Please login.",
alreadyRegistered = "Student already registered!",
invalidCredentials = "Invalid credentials!",
statusUpdated ns = "Status updated to " ++ ns ++ "!",
errorUpdatingStatus = "Error updating status: " ++ exception text,
complaintResolved = "Complaint resolved successfully!",
errorResolvingComplaint = "Error resolving complaint: " ++ exception text. -/
inductive Flash where
  | limitExceeded
  | laundrySubmitted
  | complaintSubmitted
  | registrationSuccessful
  | alreadyRegistered
  | invalidCredentials
  | statusUpdated (new_status : String)
  | errorUpdatingStatus
  | complaintResolved
  | errorResolvingComplaint
deriving DecidableEq, Repr

/-- Redirect targets (url_for arguments) used by the handlers. -/
inductive Target where
  | login
  | studentDashboard
  | adminDashboard
  | home
deriving DecidableEq, Repr

/-- View models of the rendered templates that carry query results. -/
inductive Page where
  | index
  | loginForm
  | registerForm
  | studentDash (student : Option Student) (laundry_items : List LaundryBag)
      (notifications : List Notification) (complaints : List Complaint)
  | adminDash (laundry_items : List (LaundryBag × Student))
      (complaints : List (Complaint × Student × LaundryBag)) (search_query : String)
deriving DecidableEq, Repr

/-- Result of one request: a redirect carrying flashed messages, a rendered
template, or an exception that escapes the handler uncaught (Flask then
serves a raw fault page). Every constructor records the store as the
handler leaves it. -/
inductive Outcome where
  | redirect (target : Target) (store : Store) (flashes : List Flash)
  | render (page : Page) (store : Store) (flashes : List Flash)
  | fault (store : Store)
deriving DecidableEq, Repr

/-- Store as the handler leaves it, whatever the outcome. -/
def Outcome.store : Outcome → Store
  | .redirect _ st _ => st
  | .render _ st _ => st
  | .fault st => st

/-- SQLite id assignment for an INTEGER PRIMARY KEY column with no deletes:
one more than the largest id in the table (1 on an empty table). -/
def freshId (ids : List Nat) : Nat := ids.foldr max 0 + 1

def freshStudentId (st : Store) : Nat := freshId (st.students.map Student.id)

def freshLaundryId (st : Store) : Nat := freshId (st.laundry.map LaundryBag.id)

def freshComplaintId (st : Store) : Nat := freshId (st.complaints.map Complaint.id)

def freshNotificationId (st : Store) : Nat := freshId (st.notifications.map Notification.id)

/-- SQLite LIKE lowercases only ASCII A-Z when comparing (its default
NOCASE behaviour); other characters compare as themselves. -/
def asciiLower (c : Char) : Char :=
  if 'A' ≤ c ∧ c ≤ 'Z' then Char.ofNat (c.toNat + 32) else c

/-- SQLite LIKE pattern match (no ESCAPE clause): "%" matches any sequence
of characters, "_" matches exactly one, any other pattern character matches
case-insensitively (ASCII). -/
def sqlLike : List Char → List Char → Bool
  | [], s => s.isEmpty
  | p :: ps, s =>
    if p = '%' then
      s.tails.any (fun t => sqlLike ps t)
    else
      match s with
      | [] => false
      | c :: s' => (p = '_' || asciiLower p = asciiLower c) && sqlLike ps s'

/-- Prefix test on character lists (q begins s). -/
def listStarts : List Char → List Char → Bool
  | [], _ => true
  | _ :: _, [] => false
  | a :: as, b :: bs => (a == b) && listStarts as bs

/-- Containment test on character lists (q occurs contiguously in s). -/
def containsSeq (q : List Char) : List Char → Bool
  | [] => q.isEmpty
  | c :: s' => listStarts q (c :: s') || containsSeq q s'

/-- Comparator written from the specification words "contains the query as
a case-insensitive substring" (spec, admin dashboard read): q occurs in s
after ASCII lowercasing of both.  Kept separate from sqlLike, the
embedding of the LIKE the code runs, so the two can be compared. -/
def containsCI (q s : List Char) : Bool :=
  containsSeq (q.map asciiLower) (s.map asciiLower)

/-- Descending order on a Nat key, as produced by ORDER BY key DESC. -/
def byDateDesc (key : α → Nat) (a b : α) : Prop := key b ≤ key a

instance (key : α → Nat) : DecidableRel (byDateDesc key) :=
  fun a b => Nat.decLe (key b) (key a)

instance (key : α → Nat) : IsTotal α (byDateDesc key) :=
  ⟨fun a b => Nat.le_total (key b) (key a)⟩

instance (key : α → Nat) : IsTrans α (byDateDesc key) :=
  ⟨fun _ _ _ hab hbc => Nat.le_trans hbc hab⟩

/-- ORDER BY key DESC: some reordering of the rows that is sorted by the
key, descending (SQL fixes nothing else; we use insertion sort). -/
def sortByDateDesc (key : α → Nat) (l : List α) : List α :=
  List.insertionSort (byDateDesc key) l

/-- SELECT COUNT(star) FROM laundry WHERE student_id = ? AND status NOT IN
("collected", "complete")  (count_active_laundry, src/app.py:100). -/
def count_active_laundry (st : Store) (student_id : Nat) : Nat :=
  (st.laundry.filter (fun b => b.student_id == student_id
      && !(b.status == "collected") && !(b.status == "complete"))).length

/-- count_active_laundry as the code runs it: a SELECT inside a
get_db_cursor block whose commit writes nothing; the pair records the value
returned and the store after the call. -/
def count_active_laundry_run (st : Store) (student_id : Nat) : Nat × Store :=
  (count_active_laundry st student_id, st)

/-- INSERT INTO notifications (student_id, message, date_created) VALUES
(?, ?, ?)  (create_notification, src/app.py:109); is_read takes its schema
default 0. -/
def create_notification (st : Store) (student_id : Nat) (message : String)
    (now : Nat) : Store :=
  { st with notifications := st.notifications ++
      [⟨freshNotificationId st, student_id, message, now, false⟩] }

/-- GET / (home, src/app.py:114): if "user_id" in session, redirect by
is_admin; otherwise render index.html.  Note the code checks "user_id"
first, so a pure admin session (no user_id key) falls through to index. -/
def home (st : Store) (sess : Session) : Outcome :=
  match sess.user_id with
  | some _ =>
    if sess.is_admin then .redirect .adminDashboard st []
    else .redirect .studentDashboard st []
  | none => .render .index st []

/-- POST /login (login, src/app.py:122): the fixed pair ("admin",
"admin123") sets session["is_admin"] and redirects to the admin dashboard
before any database access; otherwise the first students row matching
full_name and password exactly sets session["user_id"]; otherwise flash
"Invalid credentials!" and re-render the login form. -/
def login (st : Store) (sess : Session) (full_name password : String) :
    Session × Outcome :=
  if full_name == "admin" && password == "admin123" then
    ({ sess with is_admin := true }, .redirect .adminDashboard st [])
  else
    match st.students.find? (fun s =>
        s.full_name == full_name && s.password == password) with
    | some s => ({ sess with user_id := some s.id },
        .redirect .studentDashboard st [])
    | none => (sess, .render .loginForm st [.invalidCredentials])

/-- POST /register (register, src/app.py:148): INSERT INTO students; the
UNIQUE constraint on full_name raises sqlite3.IntegrityError when a row
with that full_name exists, caught and flashed as "Student already
registered!" with the register form re-rendered (the insert rolled back);
on success flash "Registration successful! Please login." and redirect to
login. -/
def register (st : Store) (full_name password room_number gender : String) :
    Outcome :=
  if st.students.any (fun s => s.full_name == full_name) then
    .render .registerForm st [.alreadyRegistered]
  else
    .redirect .login
      { st with students := st.students ++
          [⟨freshStudentId st, full_name, password, room_number, gender⟩] }
      [.registrationSuccessful]

/-- GET /student/dashboard (student_dashboard, src/app.py:171): requires
"user_id" in session, else redirect to login; renders the student row, the
student's laundry (date_submitted DESC), unread notifications
(date_created DESC) and complaints (date_submitted DESC). -/
def student_dashboard (st : Store) (sess : Session) : Outcome :=
  match sess.user_id with
  | none => .redirect .login st []
  | some sid =>
    .render (.studentDash
        (st.students.find? (fun s => s.id == sid))
        (sortByDateDesc (fun b => b.date_submitted)
          (st.laundry.filter (fun b => b.student_id == sid)))
        (sortByDateDesc (fun n => n.date_created)
          (st.notifications.filter (fun n =>
            n.student_id == sid && n.is_read == false)))
        (sortByDateDesc (fun c => c.date_submitted)
          (st.complaints.filter (fun c => c.student_id == sid))))
      st []

/-- POST /student/submit_laundry (submit_laundry, src/app.py:211): requires
"user_id" in session, else redirect to login; if count_active_laundry >= 2
flash the limit message and redirect to the student dashboard with no
insert; otherwise INSERT a laundry row with status "pending", the current
timestamp and the schema default notification_sent = 0. -/
def submit_laundry (st : Store) (sess : Session) (now : Nat) : Outcome :=
  match sess.user_id with
  | none => .redirect .login st []
  | some sid =>
    if 2 ≤ count_active_laundry st sid then
      .redirect .studentDashboard st [.limitExceeded]
    else
      .redirect .studentDashboard
        { st with laundry := st.laundry ++
            [⟨freshLaundryId st, sid, "pending", now, false⟩] }
        [.laundrySubmitted]

/-- POST /student/submit_complaint (submit_complaint, src/app.py:233):
requires "user_id" in session, else redirect to login; INSERT a complaint
row with schema defaults status = "pending", admin_response and
date_resolved NULL.  No check that laundry_id belongs to the student. -/
def submit_complaint (st : Store) (sess : Session) (laundry_id : Nat)
    (description : String) (now : Nat) : Outcome :=
  match sess.user_id with
  | none => .redirect .login st []
  | some sid =>
    .redirect .studentDashboard
      { st with complaints := st.complaints ++
          [⟨freshComplaintId st, sid, laundry_id, description, "pending",
            now, none, none⟩] }
      [.complaintSubmitted]

/-- GET /mark_notification_read/id (mark_notification_read,
src/app.py:254): requires "user_id" in session, else redirect to login;
UPDATE notifications SET is_read = 1 WHERE id = ?.  No ownership check and
no flash on success. -/
def mark_notification_read (st : Store) (sess : Session)
    (notification_id : Nat) : Outcome :=
  match sess.user_id with
  | none => .redirect .login st []
  | some _ =>
    .redirect .studentDashboard
      { st with notifications := st.notifications.map (fun n =>
          if n.id == notification_id then { n with is_read := true } else n) }
      []

/-- JOIN students s ON l.student_id = s.id over the laundry table. -/
def joinLaundryStudents (st : Store) : List (LaundryBag × Student) :=
  st.laundry.flatMap (fun l =>
    (st.students.filter (fun s => s.id == l.student_id)).map (fun s => (l, s)))

/-- JOIN students s ON c.student_id = s.id JOIN laundry l ON
c.laundry_id = l.id over the complaints table. -/
def joinComplaints (st : Store) : List (Complaint × Student × LaundryBag) :=
  st.complaints.flatMap (fun c =>
    (st.students.filter (fun s => s.id == c.student_id)).flatMap (fun s =>
      (st.laundry.filter (fun l => l.id == c.laundry_id)).map
        (fun l => (c, s, l))))

/-- GET /admin/dashboard (admin_dashboard, src/app.py:268): requires
"is_admin" in session, else redirect to login; a non-empty search query
filters the laundry-student join by full_name LIKE "%" + query + "%"
(an empty string is falsy in Python, so no filter); both lists ordered by
date_submitted DESC. -/
def admin_dashboard (st : Store) (sess : Session) (search_query : String) :
    Outcome :=
  if !sess.is_admin then .redirect .login st []
  else
    let rows := joinLaundryStudents st
    let rows := if search_query == "" then rows
      else rows.filter (fun r =>
        sqlLike ('%' :: (search_query.data ++ ['%'])) r.2.full_name.data)
    .render (.adminDash
        (sortByDateDesc (fun r => r.1.date_submitted) rows)
        (sortByDateDesc (fun r => r.1.date_submitted) (joinComplaints st))
        search_query)
      st []

/-- POST /admin/update_status/id (update_status, src/app.py:308): requires
"is_admin" in session, else redirect to login.  UPDATE laundry SET
status = ? WHERE id = ? (matches zero or more rows without error); when the
new status is "complete" the handler then reads the bag's student_id -
fetchone() on a missing id yields None and None[0] raises TypeError, which
except sqlite3.Error does not catch: the connection is rolled back and the
exception escapes (fault) - and calls create_notification, whose nested
get_db_cursor commits the shared connection, persisting the UPDATE and the
INSERT together; if that INSERT raises sqlite3.Error the nested rollback
undoes the still-uncommitted UPDATE too and the handler flashes the error
(insert_ok = false models this).  Otherwise flash "Status updated to
...!". -/
def update_status (st : Store) (sess : Session) (laundry_id : Nat)
    (new_status : String) (now : Nat) (insert_ok : Bool) : Outcome :=
  if !sess.is_admin then .redirect .login st []
  else
    let st1 : Store := { st with laundry := st.laundry.map (fun b =>
        if b.id == laundry_id then { b with status := new_status } else b) }
    if new_status == "complete" then
      match st1.laundry.find? (fun b => b.id == laundry_id) with
      | none => .fault st
      | some bag =>
        if insert_ok then
          .redirect .adminDashboard
            (create_notification st1 bag.student_id
              "Your laundry is ready for collection!" now)
            [.statusUpdated new_status]
        else
          .redirect .adminDashboard st [.errorUpdatingStatus]
    else
      .redirect .adminDashboard st1 [.statusUpdated new_status]

/-- Effect of the UPDATE in resolve_complaint on one complaints row: SET
status = "resolved", admin_response = ?, date_resolved = ? WHERE id = ?. -/
def resolveRow (response : String) (now : Nat) (complaint_id : Nat)
    (c : Complaint) : Complaint :=
  if c.id == complaint_id then
    { c with
      status := "resolved"
      admin_response := some response
      date_resolved := some now }
  else c

/-- POST /admin/resolve_complaint/id (resolve_complaint, src/app.py:334):
requires "is_admin" in session, else redirect to login.  UPDATE complaints
SET status = "resolved", admin_response = ?, date_resolved = ? WHERE
id = ?; then reads the complaint's student_id (missing id: same TypeError
fault as update_status, everything rolled back) and creates the
notification "Your complaint has been resolved. Response: " ++ response in
the same transaction (insert_ok = false models the INSERT failing, rolling
back the UPDATE with it).  The effect of the UPDATE on one row is the
separate definition resolveRow. -/
def resolve_complaint (st : Store) (sess : Session) (complaint_id : Nat)
    (response : String) (now : Nat) (insert_ok : Bool) : Outcome :=
  if !sess.is_admin then .redirect .login st []
  else
    let st1 : Store := { st with
      complaints := st.complaints.map (resolveRow response now complaint_id) }
    match st1.complaints.find? (fun c => c.id == complaint_id) with
    | none => .fault st
    | some c =>
      if insert_ok then
        .redirect .adminDashboard
          (create_notification st1 c.student_id
            ("Your complaint has been resolved. Response: " ++ response) now)
          [.complaintResolved]
      else
        .redirect .adminDashboard st [.errorResolvingComplaint]

/-- GET /logout (logout, src/app.py:362): session.clear() then redirect
home. -/
def logout (st : Store) (_sess : Session) : Session × Outcome :=
  (⟨none, false⟩, .redirect .home st [])

/-- One store-mutating request, for stating invariants over every
operation of the program. -/
inductive Op where
  | opRegister (full_name password room_number gender : String)
  | opSubmitLaundry (sess : Session) (now : Nat)
  | opSubmitComplaint (sess : Session) (laundry_id : Nat)
      (description : String) (now : Nat)
  | opMarkRead (sess : Session) (notification_id : Nat)
  | opUpdateStatus (sess : Session) (laundry_id : Nat) (new_status : String)
      (now : Nat) (insert_ok : Bool)
  | opResolveComplaint (sess : Session) (complaint_id : Nat)
      (response : String) (now : Nat) (insert_ok : Bool)
deriving DecidableEq, Repr

/-- Store left behind by one request, per handler. -/
def applyOp : Op → Store → Store
  | .opRegister n p r g, st => (register st n p r g).store
  | .opSubmitLaundry sess now, st => (submit_laundry st sess now).store
  | .opSubmitComplaint sess lid d now, st =>
      (submit_complaint st sess lid d now).store
  | .opMarkRead sess nid, st => (mark_notification_read st sess nid).store
  | .opUpdateStatus sess lid ns now ok, st =>
      (update_status st sess lid ns now ok).store
  | .opResolveComplaint sess cid resp now ok, st =>
      (resolve_complaint st sess cid resp now ok).store

/-- Store with one registered student and no laundry rows, for exercising
update_status on an id that does not exist. -/
def stMissing : Store :=
  ⟨[⟨1, "alice", "pw", "101", "F"⟩], [], [], []⟩

/-- Store with alice owning one pending bag, used as concrete input by
several witnesses. -/
def stOneBag : Store :=
  ⟨[⟨1, "alice", "pw", "101", "F"⟩], [⟨1, 1, "pending", 10, false⟩], [], []⟩

/-- Store with alice owning one pending bag and one pending complaint
about it. -/
def stOneComplaint : Store :=
  ⟨[⟨1, "alice", "pw", "101", "F"⟩], [⟨1, 1, "pending", 10, false⟩],
    [⟨1, 1, 1, "late", "pending", 15, none, none⟩], []⟩

/-- Store holding students alice and bob with one pending bag each, for
the admin search scenario. -/
def stSearch : Store :=
  ⟨[⟨1, "alice", "pw", "101", "F"⟩, ⟨2, "bob", "pw", "102", "M"⟩],
    [⟨1, 1, "pending", 10, false⟩, ⟨2, 2, "pending", 11, false⟩], [], []⟩

/-! Helper lemmas shared by the theorems below. -/

/-- The SQL predicate of count_active_laundry, Bool side, agrees with its
propositional reading. -/
lemma activePred_eq (sid : Nat) (b : LaundryBag) :
    (b.student_id == sid && !(b.status == "collected")
        && !(b.status == "complete"))
      = decide (b.student_id = sid ∧ b.status ≠ "collected"
          ∧ b.status ≠ "complete") := by
  by_cases h1 : b.student_id = sid <;> by_cases h2 : b.status = "collected"
    <;> by_cases h3 : b.status = "complete" <;> simp [h1, h2, h3]

/-- count_active_laundry counts exactly the rows satisfying the
propositional active-bag predicate. -/
lemma count_active_eq (st : Store) (sid : Nat) :
    count_active_laundry st sid
      = st.laundry.countP (fun b => decide (b.student_id = sid
          ∧ b.status ≠ "collected" ∧ b.status ≠ "complete")) := by
  unfold count_active_laundry
  rw [List.countP_eq_length_filter]
  exact congrArg List.length (List.filter_congr (fun b _ => activePred_eq sid b))

/-- Mapping an id-preserving row update over a table commutes with looking
a row up by id. -/
lemma find_update_by_id {α : Type} (idOf : α → Nat) (f : α → α)
    (hf : ∀ a, idOf (f a) = idOf a) (l : List α) (i : Nat) :
    (l.map (fun a => if idOf a == i then f a else a)).find?
        (fun a => idOf a == i)
      = (l.find? (fun a => idOf a == i)).map f := by
  induction l with
  | nil => rfl
  | cons a l ih =>
    by_cases h : idOf a = i
    · simp [List.find?, h, hf]
    · simp only [List.map_cons]
      rw [if_neg (by simp [h])]
      rw [List.find?_cons_of_neg _ (by simp [h]),
        List.find?_cons_of_neg _ (by simp [h])]
      exact ih

/-! Claim theorems. -/

/-- C3: count_active_laundry(student_id) returns the number of that
student's laundry rows whose status is neither "collected" nor "complete"
and leaves the store untouched; appending a row in either of those two
statuses never changes the count. -/
theorem count_active_laundry_spec (st : Store) (sid : Nat) (b : LaundryBag) :
    count_active_laundry_run st sid
      = (st.laundry.countP (fun b => decide (b.student_id = sid
          ∧ b.status ≠ "collected" ∧ b.status ≠ "complete")), st)
    ∧ (b.status = "collected" ∨ b.status = "complete" →
        count_active_laundry { st with laundry := st.laundry ++ [b] } sid
          = count_active_laundry st sid) := by
  constructor
  · unfold count_active_laundry_run
    rw [count_active_eq]
  · intro h
    unfold count_active_laundry
    have hb : (b.student_id == sid && !(b.status == "collected")
        && !(b.status == "complete")) = false := by
      rcases h with h | h <;> simp [h]
    simp [List.filter_append, hb]

/-- C3 witness: concrete evaluation of the theorem with its hypothesis
discharged. -/
theorem count_active_laundry_spec_witness :
    ((⟨1, 1, "collected", 3, false⟩ : LaundryBag).status = "collected"
        ∨ (⟨1, 1, "collected", 3, false⟩ : LaundryBag).status = "complete")
    ∧ count_active_laundry ⟨[], [⟨2, 1, "pending", 1, false⟩], [], []⟩ 1 = 1
    ∧ count_active_laundry
        ⟨[], [⟨2, 1, "pending", 1, false⟩] ++ [⟨1, 1, "collected", 3, false⟩],
          [], []⟩ 1
      = count_active_laundry ⟨[], [⟨2, 1, "pending", 1, false⟩], [], []⟩ 1 :=
  ⟨Or.inl rfl, by decide,
    (count_active_laundry_spec ⟨[], [⟨2, 1, "pending", 1, false⟩], [], []⟩ 1
      ⟨1, 1, "collected", 3, false⟩).2 (Or.inl rfl)⟩

/-- C1: with two or more active bags on record for the logged-in student,
submit_laundry flashes the limit message, redirects to the student
dashboard, and leaves the store exactly as it was. -/
theorem submit_laundry_limit (st : Store) (sess : Session) (sid now : Nat)
    (hs : sess.user_id = some sid)
    (h2 : 2 ≤ st.laundry.countP (fun b => decide (b.student_id = sid
        ∧ b.status ≠ "collected" ∧ b.status ≠ "complete"))) :
    submit_laundry st sess now
      = .redirect .studentDashboard st [.limitExceeded] := by
  unfold submit_laundry
  rw [hs]
  simp only [count_active_eq]
  rw [if_pos h2]

/-- C1 witness: a student with two pending bags is refused a third. -/
theorem submit_laundry_limit_witness :
    (⟨some 1, false⟩ : Session).user_id = some 1
    ∧ 2 ≤ ((⟨[⟨1, "alice", "pw", "101", "F"⟩],
          [⟨1, 1, "pending", 10, false⟩, ⟨2, 1, "pending", 11, false⟩],
          [], []⟩ : Store)).laundry.countP
        (fun b => decide (b.student_id = 1 ∧ b.status ≠ "collected"
            ∧ b.status ≠ "complete"))
    ∧ submit_laundry
        ⟨[⟨1, "alice", "pw", "101", "F"⟩],
          [⟨1, 1, "pending", 10, false⟩, ⟨2, 1, "pending", 11, false⟩],
          [], []⟩
        ⟨some 1, false⟩ 12
      = .redirect .studentDashboard
          ⟨[⟨1, "alice", "pw", "101", "F"⟩],
            [⟨1, 1, "pending", 10, false⟩, ⟨2, 1, "pending", 11, false⟩],
            [], []⟩
          [.limitExceeded] :=
  ⟨rfl, by decide, submit_laundry_limit _ _ 1 12 rfl (by decide)⟩

/-- C4 (behaviour the code actually has, contradicting the claim): on a
laundry id that does not exist, update_status with status "complete"
raises an uncaught TypeError (fetchone() returns None), i.e. a raw fault,
and with any other status it flashes the success message "Status updated
to ...!"; in neither case is a NotFound error reported.  The store is left
unchanged in both cases. -/
theorem update_status_missing_id_behaviour :
    update_status stMissing ⟨none, true⟩ 5 "complete" 20 true = .fault stMissing
    ∧ update_status stMissing ⟨none, true⟩ 5 "washing" 20 true
      = .redirect .adminDashboard stMissing [.statusUpdated "washing"] := by
  constructor <;> rfl

/-- C5: registering a name nobody holds succeeds; registering it again
fails with the duplicate flash ("Student already registered!", the UNIQUE
constraint violation surfaced as a message with the register form
re-rendered, not a fatal error), the store is unchanged by the second
call, and exactly one student row with that full_name persists. -/
theorem register_duplicate_spec (st : Store)
    (n p1 r1 g1 p2 r2 g2 : String)
    (h0 : ∀ s ∈ st.students, s.full_name ≠ n) :
    ∃ st1, register st n p1 r1 g1
        = .redirect .login st1 [.registrationSuccessful]
      ∧ register st1 n p2 r2 g2 = .render .registerForm st1 [.alreadyRegistered]
      ∧ st1.students.countP (fun s => s.full_name == n) = 1 := by
  have hany : (st.students.any (fun s => s.full_name == n)) = false := by
    simp only [List.any_eq_false]
    intro s hs
    simp [h0 s hs]
  have hzero : st.students.countP (fun s => s.full_name == n) = 0 := by
    rw [List.countP_eq_zero]
    intro s hs
    simp [h0 s hs]
  refine ⟨{ st with students := st.students
      ++ [⟨freshStudentId st, n, p1, r1, g1⟩] }, ?_, ?_, ?_⟩
  · unfold register
    rw [hany]
    rfl
  · unfold register
    simp [List.any_append]
  · simp [List.countP_append, hzero]

/-- C5 witness: concrete double registration starting from the empty
store. -/
theorem register_duplicate_spec_witness :
    (∀ s ∈ (⟨[], [], [], []⟩ : Store).students, s.full_name ≠ "alice")
    ∧ ∃ st1, register ⟨[], [], [], []⟩ "alice" "pw" "101" "F"
        = .redirect .login st1 [.registrationSuccessful]
      ∧ register st1 "alice" "x" "102" "M"
        = .render .registerForm st1 [.alreadyRegistered]
      ∧ st1.students.countP (fun s => s.full_name == "alice") = 1 :=
  ⟨by simp, register_duplicate_spec ⟨[], [], [], []⟩
    "alice" "pw" "101" "F" "x" "102" "M" (by simp)⟩

/-- C7: a request whose session lacks the required key is redirected to
login with no flash and an unchanged store: the four student-only handlers
when "user_id" is absent, the three admin-only handlers when "is_admin"
is absent. -/
theorem auth_gate (st : Store) (sess : Session) (now lid nid cid : Nat)
    (d ns resp q : String) (ok : Bool) :
    (sess.user_id = none →
      submit_laundry st sess now = .redirect .login st []
      ∧ submit_complaint st sess lid d now = .redirect .login st []
      ∧ mark_notification_read st sess nid = .redirect .login st []
      ∧ student_dashboard st sess = .redirect .login st [])
    ∧ (sess.is_admin = false →
      update_status st sess lid ns now ok = .redirect .login st []
      ∧ resolve_complaint st sess cid resp now ok = .redirect .login st []
      ∧ admin_dashboard st sess q = .redirect .login st []) := by
  constructor
  · intro h
    refine ⟨?_, ?_, ?_, ?_⟩ <;>
      simp [submit_laundry, submit_complaint, mark_notification_read,
        student_dashboard, h]
  · intro h
    refine ⟨?_, ?_, ?_⟩ <;>
      simp [update_status, resolve_complaint, admin_dashboard, h]

/-- C7 witness: the anonymous session is turned away from every
authenticated handler on a concrete store. -/
theorem auth_gate_witness :
    ((⟨none, false⟩ : Session).user_id = none
      ∧ submit_laundry stMissing ⟨none, false⟩ 9
          = .redirect .login stMissing []
      ∧ submit_complaint stMissing ⟨none, false⟩ 1 "late" 9
          = .redirect .login stMissing []
      ∧ mark_notification_read stMissing ⟨none, false⟩ 1
          = .redirect .login stMissing []
      ∧ student_dashboard stMissing ⟨none, false⟩
          = .redirect .login stMissing [])
    ∧ ((⟨none, false⟩ : Session).is_admin = false
      ∧ update_status stMissing ⟨none, false⟩ 1 "washing" 9 true
          = .redirect .login stMissing []
      ∧ resolve_complaint stMissing ⟨none, false⟩ 1 "ok" 9 true
          = .redirect .login stMissing []
      ∧ admin_dashboard stMissing ⟨none, false⟩ ""
          = .redirect .login stMissing []) :=
  ⟨⟨rfl, (auth_gate stMissing ⟨none, false⟩ 9 1 1 1 "late" "washing" "ok" ""
      true).1 rfl⟩,
    ⟨rfl, (auth_gate stMissing ⟨none, false⟩ 9 1 1 1 "late" "washing" "ok" ""
      true).2 rfl⟩⟩

/-- C8: starting from a session without the admin flag, login sets the
admin flag exactly on the sentinel pair ("admin", "admin123"), whatever
the store holds; on any other pair it binds the session to a stored
student matching full_name and password exactly when one exists, and
otherwise flashes "Invalid credentials!" leaving the session as it was. -/
theorem login_spec (st : Store) (sess : Session) (n p : String)
    (hA : sess.is_admin = false) :
    ((login st sess n p).1.is_admin = true ↔ (n = "admin" ∧ p = "admin123"))
    ∧ (¬(n = "admin" ∧ p = "admin123") →
        ((∃ s ∈ st.students, s.full_name = n ∧ s.password = p) →
          ∃ s ∈ st.students, s.full_name = n ∧ s.password = p
            ∧ (login st sess n p).1 = { sess with user_id := some s.id }
            ∧ (login st sess n p).2 = .redirect .studentDashboard st [])
        ∧ ((∀ s ∈ st.students, ¬(s.full_name = n ∧ s.password = p)) →
          login st sess n p = (sess, .render .loginForm st
            [.invalidCredentials]))) := by
  by_cases hsent : n = "admin" ∧ p = "admin123"
  · obtain ⟨hn, hp⟩ := hsent
    subst hn
    subst hp
    constructor
    · simp [login]
    · intro hcon
      exact absurd ⟨rfl, rfl⟩ hcon
  · have hbeq : (n == "admin" && p == "admin123") = false := by
      rcases not_and_or.mp hsent with h | h <;> simp [h]
    constructor
    · cases hfind : st.students.find? (fun s =>
          s.full_name == n && s.password == p) with
      | none => simp [login, hbeq, hfind, hA, hsent]
      | some s => simp [login, hbeq, hfind, hA, hsent]
    · intro _
      constructor
      · rintro ⟨s, hs, hsn, hsp⟩
        cases hfind : st.students.find? (fun s =>
            s.full_name == n && s.password == p) with
        | none =>
          rw [List.find?_eq_none] at hfind
          exact absurd (by simp [hsn, hsp]) (hfind s hs)
        | some s' =>
          have hmem := List.mem_of_find?_eq_some hfind
          have hps := List.find?_some hfind
          simp only [Bool.and_eq_true, beq_iff_eq] at hps
          exact ⟨s', hmem, hps.1, hps.2,
            by simp [login, hbeq, hfind], by simp [login, hbeq, hfind]⟩
      · intro hall
        have hfind : st.students.find? (fun s =>
            s.full_name == n && s.password == p) = none := by
          rw [List.find?_eq_none]
          intro s hs
          simp only [Bool.and_eq_true, beq_iff_eq]
          exact fun hcon => hall s hs hcon
        simp [login, hbeq, hfind]

/-- C8 witness: on a store holding alice, the sentinel pair turns the
session admin, alice's own pair logs her in, and a wrong pair changes
nothing. -/
theorem login_spec_witness :
    (⟨none, false⟩ : Session).is_admin = false
    ∧ ((login stMissing ⟨none, false⟩ "admin" "admin123").1.is_admin = true
        ↔ ("admin" = "admin" ∧ "admin123" = "admin123"))
    ∧ (¬("alice" = "admin" ∧ "pw" = "admin123") →
        ((∃ s ∈ stMissing.students, s.full_name = "alice" ∧ s.password = "pw") →
          ∃ s ∈ stMissing.students, s.full_name = "alice" ∧ s.password = "pw"
            ∧ (login stMissing ⟨none, false⟩ "alice" "pw").1
                = { (⟨none, false⟩ : Session) with user_id := some s.id }
            ∧ (login stMissing ⟨none, false⟩ "alice" "pw").2
                = .redirect .studentDashboard stMissing [])
        ∧ ((∀ s ∈ stMissing.students,
              ¬(s.full_name = "alice" ∧ s.password = "pw")) →
          login stMissing ⟨none, false⟩ "alice" "pw"
            = (⟨none, false⟩, .render .loginForm stMissing
                [.invalidCredentials]))) :=
  ⟨rfl, (login_spec stMissing ⟨none, false⟩ "admin" "admin123" rfl).1,
    (login_spec stMissing ⟨none, false⟩ "alice" "pw" rfl).2⟩

/-- Reduction of update_status to "complete" on an existing bag: success
path and failing-INSERT path. -/
lemma update_status_complete_eq (st : Store) (sess : Session)
    (lid now : Nat) (bag : LaundryBag)
    (hA : sess.is_admin = true)
    (hb : st.laundry.find? (fun b => b.id == lid) = some bag) :
    update_status st sess lid "complete" now true
      = .redirect .adminDashboard
          (create_notification
            { st with laundry := st.laundry.map (fun b =>
                if b.id == lid then { b with status := "complete" } else b) }
            bag.student_id "Your laundry is ready for collection!" now)
          [.statusUpdated "complete"]
    ∧ update_status st sess lid "complete" now false
      = .redirect .adminDashboard st [.errorUpdatingStatus] := by
  have hfind1 : (st.laundry.map (fun b =>
      if b.id == lid then { b with status := "complete" } else b)).find?
        (fun b => b.id == lid)
      = some { bag with status := "complete" } := by
    have h := find_update_by_id LaundryBag.id
      (fun b => { b with status := "complete" }) (fun _ => rfl) st.laundry lid
    rw [hb] at h
    exact h
  constructor <;>
    · unfold update_status
      rw [hA]
      simp only [Bool.not_true, Bool.false_eq_true, if_false, hfind1]
      simp

/-- C2: on an existing bag, update_status to "complete" persists the
status change together with exactly one new unread notification for the
bag's owner carrying "Your laundry is ready for collection!" (one commit
covers both statements); when the notification INSERT fails the rollback
also discards the status update, so the store is exactly the original:
no partial state is ever left behind. -/
theorem update_status_complete_atomic (st : Store) (sess : Session)
    (lid now : Nat) (bag : LaundryBag)
    (hA : sess.is_admin = true)
    (hb : st.laundry.find? (fun b => b.id == lid) = some bag) :
    (∃ st' n, update_status st sess lid "complete" now true
        = .redirect .adminDashboard st' [.statusUpdated "complete"]
      ∧ st'.notifications = st.notifications ++ [n]
      ∧ n.student_id = bag.student_id
      ∧ n.message = "Your laundry is ready for collection!"
      ∧ n.is_read = false
      ∧ (∀ b ∈ st'.laundry, b.id = lid → b.status = "complete")
      ∧ st'.students = st.students ∧ st'.complaints = st.complaints)
    ∧ update_status st sess lid "complete" now false
        = .redirect .adminDashboard st [.errorUpdatingStatus] := by
  obtain ⟨hok, hfail⟩ := update_status_complete_eq st sess lid now bag hA hb
  refine ⟨⟨_, ⟨freshNotificationId st, bag.student_id,
      "Your laundry is ready for collection!", now, false⟩, hok, rfl, rfl, rfl,
      rfl, ?_, rfl, rfl⟩, hfail⟩
  intro b hbmem hid
  obtain ⟨a, _, rfl⟩ := List.mem_map.mp hbmem
  by_cases h : a.id = lid
  · simp [h]
  · rw [if_neg (by simp [h])] at hid ⊢
    exact absurd hid h

/-- C2 witness: concrete run on a one-bag store, both the succeeding
INSERT and the failing one. -/
theorem update_status_complete_atomic_witness :
    (⟨none, true⟩ : Session).is_admin = true
    ∧ stOneBag.laundry.find? (fun b => b.id == 1)
        = some ⟨1, 1, "pending", 10, false⟩
    ∧ (∃ st' n, update_status stOneBag ⟨none, true⟩ 1 "complete" 20 true
        = .redirect .adminDashboard st' [.statusUpdated "complete"]
      ∧ st'.notifications = stOneBag.notifications ++ [n]
      ∧ n.student_id = (⟨1, 1, "pending", 10, false⟩ : LaundryBag).student_id
      ∧ n.message = "Your laundry is ready for collection!"
      ∧ n.is_read = false
      ∧ (∀ b ∈ st'.laundry, b.id = 1 → b.status = "complete")
      ∧ st'.students = stOneBag.students ∧ st'.complaints = stOneBag.complaints)
    ∧ update_status stOneBag ⟨none, true⟩ 1 "complete" 20 false
        = .redirect .adminDashboard stOneBag [.errorUpdatingStatus] :=
  ⟨rfl, by decide,
    (update_status_complete_atomic stOneBag ⟨none, true⟩ 1 20
      ⟨1, 1, "pending", 10, false⟩ rfl (by decide)).1,
    (update_status_complete_atomic stOneBag ⟨none, true⟩ 1 20
      ⟨1, 1, "pending", 10, false⟩ rfl (by decide)).2⟩

/-- Reduction of a successful resolve_complaint call on an existing
complaint, together with the lookup fact needed to chain a second call on
the resulting store. -/
lemma resolve_complaint_eq (st : Store) (sess : Session) (cid : Nat)
    (c0 : Complaint) (r : String) (t : Nat)
    (hA : sess.is_admin = true)
    (hc : st.complaints.find? (fun c => c.id == cid) = some c0) :
    ((create_notification
        { st with complaints := st.complaints.map (resolveRow r t cid) }
        c0.student_id
        ("Your complaint has been resolved. Response: " ++ r) t).complaints.find?
        (fun c => c.id == cid)
      = some { c0 with
          status := "resolved"
          admin_response := some r
          date_resolved := some t })
    ∧ resolve_complaint st sess cid r t true
      = .redirect .adminDashboard
          (create_notification
            { st with complaints := st.complaints.map (resolveRow r t cid) }
            c0.student_id
            ("Your complaint has been resolved. Response: " ++ r) t)
          [.complaintResolved] := by
  have hfind : (st.complaints.map (resolveRow r t cid)).find?
      (fun c => c.id == cid)
      = some { c0 with
          status := "resolved"
          admin_response := some r
          date_resolved := some t } := by
    have h := find_update_by_id Complaint.id
      (fun c => { c with
        status := "resolved"
        admin_response := some r
        date_resolved := some t }) (fun _ => rfl) st.complaints cid
    rw [hc] at h
    exact h
  refine ⟨hfind, ?_⟩
  unfold resolve_complaint
  rw [hA]
  simp only [Bool.not_true, Bool.false_eq_true, if_false, hfind]
  simp

/-- C6: resolving the same existing complaint twice appends one
notification per call for the complaint's student (embedding each call's
response text), and the complaint ends resolved carrying the second
call's admin_response and date_resolved. -/
theorem resolve_complaint_twice (st : Store) (sess : Session) (cid : Nat)
    (c0 : Complaint) (r1 r2 : String) (t1 t2 : Nat)
    (hA : sess.is_admin = true)
    (hc : st.complaints.find? (fun c => c.id == cid) = some c0) :
    ∃ st1 st2 n1 n2,
      resolve_complaint st sess cid r1 t1 true
        = .redirect .adminDashboard st1 [.complaintResolved]
      ∧ resolve_complaint st1 sess cid r2 t2 true
        = .redirect .adminDashboard st2 [.complaintResolved]
      ∧ st2.notifications = st.notifications ++ [n1, n2]
      ∧ n1.student_id = c0.student_id
      ∧ n1.message = "Your complaint has been resolved. Response: " ++ r1
      ∧ n2.student_id = c0.student_id
      ∧ n2.message = "Your complaint has been resolved. Response: " ++ r2
      ∧ (∀ c ∈ st2.complaints, c.id = cid →
          c.status = "resolved" ∧ c.admin_response = some r2
            ∧ c.date_resolved = some t2) := by
  obtain ⟨hfind1, h1⟩ := resolve_complaint_eq st sess cid c0 r1 t1 hA hc
  obtain ⟨_, h2⟩ := resolve_complaint_eq _ sess cid _ r2 t2 hA hfind1
  refine ⟨_, _,
    ⟨freshNotificationId st, c0.student_id,
      "Your complaint has been resolved. Response: " ++ r1, t1, false⟩,
    ⟨freshNotificationId (create_notification
        { st with complaints := st.complaints.map (resolveRow r1 t1 cid) }
        c0.student_id
        ("Your complaint has been resolved. Response: " ++ r1) t1),
      c0.student_id,
      "Your complaint has been resolved. Response: " ++ r2, t2, false⟩,
    h1, h2, ?_, rfl, rfl, rfl, rfl, ?_⟩
  · simp [create_notification]
    exact ⟨rfl, rfl⟩
  · intro c hm hid
    obtain ⟨a, ha, rfl⟩ := List.mem_map.mp hm
    obtain ⟨a0, _, rfl⟩ := List.mem_map.mp ha
    by_cases h : a0.id = cid
    · simp [resolveRow, h]
    · rw [show resolveRow r1 t1 cid a0 = a0 from if_neg (by simp [h])] at hid ⊢
      rw [show resolveRow r2 t2 cid a0 = a0 from if_neg (by simp [h])] at hid ⊢
      exact absurd hid h

/-- C6 witness: concrete double resolution of complaint 1. -/
theorem resolve_complaint_twice_witness :
    (⟨none, true⟩ : Session).is_admin = true
    ∧ stOneComplaint.complaints.find? (fun c => c.id == 1)
        = some ⟨1, 1, 1, "late", "pending", 15, none, none⟩
    ∧ ∃ st1 st2 n1 n2,
      resolve_complaint stOneComplaint ⟨none, true⟩ 1 "r1" 30 true
        = .redirect .adminDashboard st1 [.complaintResolved]
      ∧ resolve_complaint st1 ⟨none, true⟩ 1 "r2" 40 true
        = .redirect .adminDashboard st2 [.complaintResolved]
      ∧ st2.notifications = stOneComplaint.notifications ++ [n1, n2]
      ∧ n1.student_id
          = (⟨1, 1, 1, "late", "pending", 15, none, none⟩ : Complaint).student_id
      ∧ n1.message = "Your complaint has been resolved. Response: " ++ "r1"
      ∧ n2.student_id
          = (⟨1, 1, 1, "late", "pending", 15, none, none⟩ : Complaint).student_id
      ∧ n2.message = "Your complaint has been resolved. Response: " ++ "r2"
      ∧ (∀ c ∈ st2.complaints, c.id = 1 →
          c.status = "resolved" ∧ c.admin_response = some "r2"
            ∧ c.date_resolved = some 40) :=
  ⟨rfl, by decide,
    resolve_complaint_twice stOneComplaint ⟨none, true⟩ 1
      ⟨1, 1, 1, "late", "pending", 15, none, none⟩ "r1" "r2" 30 40 rfl
      (by decide)⟩

/-- C10: whatever single operation runs, every notification row it leaves
behind either was already in the store, or is newly created unread
(is_read = 0, the schema default create_notification relies on), or is the
one row mark_notification_read flipped to read; so rows are born unread
and only mark_notification_read sets is_read. -/
theorem notifications_unread_invariant (op : Op) (st : Store) :
    ∀ nt ∈ (applyOp op st).notifications,
      nt ∈ st.notifications
      ∨ nt.is_read = false
      ∨ ∃ sess nid, op = .opMarkRead sess nid
          ∧ ∃ m ∈ st.notifications, m.id = nid
            ∧ nt = { m with is_read := true } := by
  intro nt hm
  cases op with
  | opRegister n p r g =>
    left
    simp only [applyOp] at hm
    unfold register at hm
    split at hm <;> exact hm
  | opSubmitLaundry sess now =>
    left
    simp only [applyOp] at hm
    unfold submit_laundry at hm
    split at hm
    · exact hm
    · split at hm <;> exact hm
  | opSubmitComplaint sess lid d now =>
    left
    simp only [applyOp] at hm
    unfold submit_complaint at hm
    split at hm <;> exact hm
  | opMarkRead sess nid =>
    simp only [applyOp] at hm
    unfold mark_notification_read at hm
    split at hm
    · exact Or.inl hm
    · have hm' : nt ∈ st.notifications.map (fun n =>
          if n.id == nid then { n with is_read := true } else n) := hm
      obtain ⟨a, ha, rfl⟩ := List.mem_map.mp hm'
      by_cases h : a.id = nid
      · exact Or.inr (Or.inr ⟨sess, nid, rfl, a, ha, h, by simp [h]⟩)
      · rw [if_neg (by simp [h])]
        exact Or.inl ha
  | opUpdateStatus sess lid ns now ok =>
    simp only [applyOp] at hm
    unfold update_status at hm
    dsimp only at hm
    split at hm
    · exact Or.inl hm
    · split at hm
      · split at hm
        · exact Or.inl hm
        · split at hm
          · rcases List.mem_append.mp hm with h | h
            · exact Or.inl h
            · rw [List.mem_singleton.mp h]
              exact Or.inr (Or.inl rfl)
          · exact Or.inl hm
      · exact Or.inl hm
  | opResolveComplaint sess cid resp now ok =>
    simp only [applyOp] at hm
    unfold resolve_complaint at hm
    dsimp only at hm
    split at hm
    · exact Or.inl hm
    · split at hm
      · exact Or.inl hm
      · split at hm
        · rcases List.mem_append.mp hm with h | h
          · exact Or.inl h
          · rw [List.mem_singleton.mp h]
            exact Or.inr (Or.inl rfl)
        · exact Or.inl hm

/-- C10 witness: the notification created by a concrete status update to
"complete" is unread. -/
theorem notifications_unread_invariant_witness :
    (⟨1, 1, "Your laundry is ready for collection!", 20, false⟩ : Notification)
        ∈ (applyOp (.opUpdateStatus ⟨none, true⟩ 1 "complete" 20 true)
            stOneBag).notifications
    ∧ ((⟨1, 1, "Your laundry is ready for collection!", 20, false⟩ : Notification)
          ∈ stOneBag.notifications
      ∨ (⟨1, 1, "Your laundry is ready for collection!", 20,
          false⟩ : Notification).is_read = false
      ∨ ∃ sess nid,
          (Op.opUpdateStatus ⟨none, true⟩ 1 "complete" 20 true)
            = .opMarkRead sess nid
          ∧ ∃ m ∈ stOneBag.notifications, m.id = nid
            ∧ (⟨1, 1, "Your laundry is ready for collection!", 20,
                false⟩ : Notification) = { m with is_read := true }) :=
  ⟨by decide,
    notifications_unread_invariant
      (.opUpdateStatus ⟨none, true⟩ 1 "complete" 20 true) stOneBag
      ⟨1, 1, "Your laundry is ready for collection!", 20, false⟩ (by decide)⟩

/-! Lemmas relating the embedded SQLite LIKE match to plain substring
containment, for the admin search claim. -/

lemma listStarts_iff (q : List Char) : ∀ s : List Char,
    listStarts q s = true ↔ ∃ r, s = q ++ r := by
  induction q with
  | nil => intro s; simp [listStarts]
  | cons a as ih =>
    intro s
    cases s with
    | nil => simp [listStarts]
    | cons b bs =>
      simp only [listStarts, Bool.and_eq_true, beq_iff_eq, ih bs,
        List.cons_append, List.cons.injEq]
      constructor
      · rintro ⟨rfl, r, rfl⟩
        exact ⟨r, rfl, rfl⟩
      · rintro ⟨r, h1, h2⟩
        exact ⟨h1.symm, r, h2⟩

lemma containsSeq_iff (q : List Char) : ∀ s : List Char,
    containsSeq q s = true ↔ ∃ l r, s = l ++ q ++ r := by
  intro s
  induction s with
  | nil =>
    simp only [containsSeq, List.isEmpty_iff]
    constructor
    · rintro rfl
      exact ⟨[], [], rfl⟩
    · rintro ⟨l, r, h⟩
      rcases List.append_eq_nil.mp (List.append_eq_nil.mp h.symm).1 with ⟨-, h2⟩
      exact h2
  | cons c s' ih =>
    simp only [containsSeq, Bool.or_eq_true, listStarts_iff, ih]
    constructor
    · rintro (⟨r, h⟩ | ⟨l, r, rfl⟩)
      · exact ⟨[], r, by simpa using h⟩
      · exact ⟨c :: l, r, rfl⟩
    · rintro ⟨l, r, h⟩
      cases l with
      | nil =>
        left
        exact ⟨r, by simpa using h⟩
      | cons x l' =>
        right
        rw [List.cons_append, List.cons_append, List.cons.injEq] at h
        exact ⟨l', r, h.2⟩

lemma sqlLike_star_iff (ps s : List Char) :
    sqlLike ('%' :: ps) s = true
      ↔ ∃ t, (∃ l, s = l ++ t) ∧ sqlLike ps t = true := by
  rw [show sqlLike ('%' :: ps) s = s.tails.any (fun t => sqlLike ps t) from
    if_pos rfl]
  rw [List.any_eq_true]
  constructor
  · rintro ⟨t, ht, hp⟩
    obtain ⟨l, hl⟩ := (List.mem_tails t s).mp ht
    exact ⟨t, ⟨l, hl.symm⟩, hp⟩
  · rintro ⟨t, ⟨l, hl⟩, hp⟩
    exact ⟨t, (List.mem_tails t s).mpr ⟨l, hl.symm⟩, hp⟩

lemma sqlLike_cons_nil (a : Char) (ps : List Char) (ha : a ≠ '%') :
    sqlLike (a :: ps) [] = false := by
  unfold sqlLike
  rw [if_neg ha]

lemma sqlLike_cons (a : Char) (ps : List Char) (b : Char) (s : List Char)
    (ha : a ≠ '%') :
    sqlLike (a :: ps) (b :: s)
      = ((a = '_' || asciiLower a = asciiLower b) && sqlLike ps s) := by
  have h : sqlLike (a :: ps) (b :: s)
      = if a = '%' then (b :: s).tails.any (fun t => sqlLike ps t)
        else ((a = '_' || asciiLower a = asciiLower b) && sqlLike ps s) := rfl
  rw [h, if_neg ha]

lemma sqlLike_trailing_star_iff (q : List Char)
    (hq : ∀ c ∈ q, c ≠ '%' ∧ c ≠ '_') : ∀ s : List Char,
    sqlLike (q ++ ['%']) s = true
      ↔ ∃ r, s.map asciiLower = q.map asciiLower ++ r := by
  induction q with
  | nil =>
    intro s
    rw [List.nil_append,
      show sqlLike ['%'] s = s.tails.any (fun t => sqlLike [] t) from
        if_pos rfl]
    rw [List.any_eq_true]
    constructor
    · intro _
      exact ⟨s.map asciiLower, rfl⟩
    · intro _
      exact ⟨[], (List.mem_tails [] s).mpr List.nil_suffix,
        by simp [sqlLike]⟩
  | cons a as ih =>
    have ha := hq a (List.mem_cons_self a as)
    have has : ∀ c ∈ as, c ≠ '%' ∧ c ≠ '_' :=
      fun c hc => hq c (List.mem_cons_of_mem a hc)
    intro s
    cases s with
    | nil =>
      rw [List.cons_append, sqlLike_cons_nil _ _ ha.1]
      constructor
      · intro h
        exact absurd h (by simp)
      · rintro ⟨r, hr⟩
        exact absurd hr (by simp)
    | cons b s' =>
      rw [List.cons_append, sqlLike_cons _ _ _ _ ha.1]
      simp only [Bool.and_eq_true, Bool.or_eq_true, decide_eq_true_eq,
        ih has s', List.map_cons, List.cons_append, List.cons.injEq]
      constructor
      · rintro ⟨h1, r, hr⟩
        rcases h1 with h1 | h1
        · exact absurd h1 ha.2
        · exact ⟨r, h1.symm, hr⟩
      · rintro ⟨r, h1, h2⟩
        exact ⟨Or.inr h1.symm, r, h2⟩

/-- On a wildcard-free query q, the LIKE pattern the code builds,
"%" ++ q ++ "%", matches exactly the strings containing q
case-insensitively. -/
lemma sqlLike_substring (q s : List Char)
    (hq : ∀ c ∈ q, c ≠ '%' ∧ c ≠ '_') :
    sqlLike ('%' :: (q ++ ['%'])) s = containsCI q s := by
  rw [Bool.eq_iff_iff, sqlLike_star_iff, containsCI, containsSeq_iff]
  constructor
  · rintro ⟨t, ⟨l, rfl⟩, hp⟩
    obtain ⟨r, hr⟩ := (sqlLike_trailing_star_iff q hq t).mp hp
    exact ⟨l.map asciiLower, r, by rw [List.map_append, hr, List.append_assoc]⟩
  · rintro ⟨l, r, h⟩
    refine ⟨s.drop l.length, ⟨s.take l.length, (List.take_append_drop _ s).symm⟩,
      (sqlLike_trailing_star_iff q hq _).mpr ⟨r, ?_⟩⟩
    rw [List.map_drop, h, List.append_assoc, List.drop_left]

/-- C9 (amended): with the admin flag set and a non-empty search query
free of the LIKE wildcards "%" and "_", the admin dashboard renders,
without touching the store, exactly the laundry-student join rows whose
student full_name contains the query case-insensitively (a permutation of
that filter), sorted newest first by date_submitted; an empty query gives
all join rows. -/
theorem admin_dashboard_search (st : Store) (sess : Session) (q : String)
    (hA : sess.is_admin = true)
    (hw : ∀ c ∈ q.data, c ≠ '%' ∧ c ≠ '_') :
    ∃ items comps,
      admin_dashboard st sess q = .render (.adminDash items comps q) st []
      ∧ items.Pairwise (fun a b => b.1.date_submitted ≤ a.1.date_submitted)
      ∧ (q ≠ "" → items.Perm ((joinLaundryStudents st).filter
          (fun r => containsCI q.data r.2.full_name.data)))
      ∧ (q = "" → items.Perm (joinLaundryStudents st)) := by
  have heq : admin_dashboard st sess q
      = .render (.adminDash
          (sortByDateDesc (fun r => r.1.date_submitted)
            (if q == "" then joinLaundryStudents st
              else (joinLaundryStudents st).filter (fun r =>
                sqlLike ('%' :: (q.data ++ ['%'])) r.2.full_name.data)))
          (sortByDateDesc (fun r => r.1.date_submitted) (joinComplaints st))
          q)
        st [] := by
    unfold admin_dashboard
    rw [hA]
    rfl
  refine ⟨_, _, heq,
    List.sorted_insertionSort
      (byDateDesc (fun r : LaundryBag × Student => r.1.date_submitted)) _,
    ?_, ?_⟩
  · intro hne
    rw [show (q == "") = false by simpa using hne]
    rw [if_neg (by simp)]
    have hfeq : (joinLaundryStudents st).filter
        (fun r => sqlLike ('%' :: (q.data ++ ['%'])) r.2.full_name.data)
        = (joinLaundryStudents st).filter
          (fun r => containsCI q.data r.2.full_name.data) :=
      List.filter_congr
        (fun r _ => sqlLike_substring q.data r.2.full_name.data hw)
    rw [← hfeq]
    exact List.perm_insertionSort _ _
  · intro h0
    rw [show (q == "") = true by simp [h0]]
    rw [if_pos rfl]
    exact List.perm_insertionSort _ _

/-- C9 witness: searching "ali" over alice and bob returns exactly
alice's bag. -/
theorem admin_dashboard_search_witness :
    (⟨none, true⟩ : Session).is_admin = true
    ∧ ∃ items comps,
        admin_dashboard stSearch ⟨none, true⟩ "ali"
          = .render (.adminDash items comps "ali") stSearch []
        ∧ items.Pairwise (fun a b => b.1.date_submitted ≤ a.1.date_submitted)
        ∧ ("ali" ≠ "" → items.Perm ((joinLaundryStudents stSearch).filter
            (fun r => containsCI "ali".data r.2.full_name.data)))
        ∧ ("ali" = "" → items.Perm (joinLaundryStudents stSearch)) :=
  ⟨rfl, admin_dashboard_search stSearch ⟨none, true⟩ "ali" rfl (by decide)⟩

/-- C9 counterexample to the claim as stated: the query "%" is non-empty,
yet the admin dashboard returns alice's laundry row even though "alice"
does not contain "%" as a substring - SQLite treats "%" in the query as a
LIKE wildcard, not as a literal character. -/
theorem admin_dashboard_search_cex :
    admin_dashboard stOneBag ⟨none, true⟩ "%"
      = .render (.adminDash
          [(⟨1, 1, "pending", 10, false⟩, ⟨1, "alice", "pw", "101", "F"⟩)]
          [] "%") stOneBag []
    ∧ containsCI "%".data "alice".data = false := by
  exact ⟨by decide, by decide⟩

end Laundry
